import Mathlib

/-!
Verification development for the terraform-provider-mongodb core.

The Go sources are shallowly embedded: pure helpers become Lean functions,
each resource lifecycle method becomes a function from its request payload
(and an oracle recording the behaviour of the remote MongoDB client) to a
response record listing the diagnostics raised, the state written (if any)
and the remote calls performed.  Terraform `types.String` null values read
back as "" through `ValueString()`, so optional string attributes are plain
`String`s with "" standing for "unset", exactly as the Go code tests them.
-/

/-! ### Identifier codec

`strings.Split(s, ".")` for the one-character separator used by the codec:
split at every occurrence of the separator, keeping empty segments.
Strings are handled through their character lists (`String.data`).
-/

def splitOnChar (c : Char) : List Char → List (List Char)
  | [] => [[]]
  | x :: xs =>
    match splitOnChar c xs with
    | [] => [[]]
    | h :: t => if x = c then [] :: h :: t else (x :: h) :: t

/-- `collectionId` from src/unnamed/part_003 (lines 414-417). -/
structure collectionId where
  database : String
  collection : String
deriving DecidableEq

/-- `parseCollectionId` from src/unnamed/part_003 (lines 419-428):
split on `.`; any segment count other than 2 is an error. -/
def parseCollectionId (id : String) : Except String collectionId :=
  match splitOnChar '.' id.data with
  | [a, b] => .ok { database := ⟨a⟩, collection := ⟨b⟩ }
  | _ => .error ("invalid id format: " ++ id)

/-- `indexId` from src/unnamed/part_002 (lines 48-52). -/
structure indexId where
  database : String
  collection : String
  indexName : String
deriving DecidableEq

/-- `parseIndexId` from src/unnamed/part_002 (lines 54-61). -/
def parseIndexId (path : String) : Except String indexId :=
  match splitOnChar '.' path.data with
  | [a, b, c] => .ok { database := ⟨a⟩, collection := ⟨b⟩, indexName := ⟨c⟩ }
  | _ => .error "Index id's format must be <database>.<collection>.<index_name>"

lemma splitOnChar_ne_nil (c : Char) (l : List Char) : splitOnChar c l ≠ [] := by
  cases l with
  | nil => simp [splitOnChar]
  | cons x xs =>
    unfold splitOnChar
    cases splitOnChar c xs with
    | nil => simp
    | cons h t =>
      by_cases hx : x = c <;> simp [hx]

lemma splitOnChar_no_sep (c : Char) (l : List Char) (h : c ∉ l) :
    splitOnChar c l = [l] := by
  induction l with
  | nil => rfl
  | cons x xs ih =>
    have hx : x ≠ c := fun hc => h (by simp [hc])
    have hxs : c ∉ xs := fun hc => h (List.mem_cons_of_mem _ hc)
    unfold splitOnChar
    rw [ih hxs]
    simp [hx]

lemma splitOnChar_append (c : Char) (a b : List Char) (h : c ∉ a) :
    splitOnChar c (a ++ c :: b) = a :: splitOnChar c b := by
  induction a with
  | nil =>
    simp only [List.nil_append]
    rcases hb : splitOnChar c b with _ | ⟨x, t⟩
    · exact absurd hb (splitOnChar_ne_nil c b)
    · conv_lhs => rw [splitOnChar]
      rw [hb]
      simp
  | cons x xs ih =>
    have hx : x ≠ c := fun hc => h (by simp [hc])
    have hxs : c ∉ xs := fun hc => h (List.mem_cons_of_mem _ hc)
    rw [List.cons_append]
    conv_lhs => rw [splitOnChar]
    rw [ih hxs]
    simp [hx]

lemma parseCollectionId_error (s : String)
    (hs : (splitOnChar '.' s.data).length ≠ 2) :
    parseCollectionId s = .error ("invalid id format: " ++ s) := by
  unfold parseCollectionId
  rcases h : splitOnChar '.' s.data with _ | ⟨x, _ | ⟨y, _ | ⟨z, t⟩⟩⟩ <;>
    simp_all

lemma parseIndexId_error (s : String)
    (hs : (splitOnChar '.' s.data).length ≠ 3) :
    parseIndexId s =
      .error "Index id's format must be <database>.<collection>.<index_name>" := by
  unfold parseIndexId
  rcases h : splitOnChar '.' s.data with _ | ⟨x, _ | ⟨y, _ | ⟨z, _ | ⟨w, t⟩⟩⟩⟩ <;>
    simp_all

/-! ### Type/value translators (src/unnamed/part_002, lines 14-46)

`convertToMongoIndexType` returns a Go `interface{}` holding either an
`int` or the original string; `convertToTfIndexType` receives a BSON-decoded
value that it type-asserts to `int32` or `string` (anything else errors).
-/

/-- Value produced by `convertToMongoIndexType`: a Go `int` or a string. -/
inductive MongoIndexVal where
  | int (v : Int)
  | str (s : String)
deriving DecidableEq

/-- Value consumed by `convertToTfIndexType`: a Go `interface\x7b\x7d` coming
back from the driver, type-switched on `int32` and `string`; `other` covers
every runtime type matching neither assertion. -/
inductive BsonVal where
  | int32 (v : Int)
  | str (s : String)
  | other
deriving DecidableEq

/-- `convertToMongoIndexType` from src/unnamed/part_002 (lines 15-24). -/
def convertToMongoIndexType (indexType : String) : MongoIndexVal :=
  match indexType with
  | "asc" => .int 1
  | "desc" => .int (-1)
  | _ => .str indexType

/-- `convertToTfIndexType` from src/unnamed/part_002 (lines 27-46). -/
def convertToTfIndexType (indexType : BsonVal) : Except String String :=
  match indexType with
  | .int32 v =>
    if v = 1 then .ok "asc"
    else if v = -1 then .ok "desc"
    else .error "if typeIndex is int, it MUST have value 1 ou -1"
  | .str s => .ok s
  | .other => .error "typeIndex MUST be int32 or string"

/-- C4: identifier codec round-trip and segment-count checking.  For
non-empty dot-free segments, parsing the dot-joined identifier returns the
original segments; any input whose split on `.` does not have exactly the
expected segment count (2 for collections, 3 for indexes) fails with the
malformed-identifier error and yields no segments. -/
theorem identifier_codec_roundtrip (a b c : String)
    (ha : a ≠ "") (hb : b ≠ "") (hc : c ≠ "")
    (hda : '.' ∉ a.data) (hdb : '.' ∉ b.data) (hdc : '.' ∉ c.data) :
    parseCollectionId (a ++ "." ++ b) = .ok ⟨a, b⟩ ∧
    parseIndexId (a ++ "." ++ b ++ "." ++ c) = .ok ⟨a, b, c⟩ ∧
    (∀ s : String, (splitOnChar '.' s.data).length ≠ 2 →
      parseCollectionId s = .error ("invalid id format: " ++ s)) ∧
    (∀ s : String, (splitOnChar '.' s.data).length ≠ 3 →
      parseIndexId s =
        .error "Index id's format must be <database>.<collection>.<index_name>") := by
  have hdot : ".".data = ['.'] := rfl
  refine ⟨?_, ?_, parseCollectionId_error, parseIndexId_error⟩
  · have h1 : (a ++ "." ++ b).data = a.data ++ '.' :: b.data := by
      rw [String.data_append, String.data_append, hdot, List.append_assoc]
      rfl
    unfold parseCollectionId
    rw [h1, splitOnChar_append _ _ _ hda, splitOnChar_no_sep _ _ hdb]
  · have h2 : (a ++ "." ++ b ++ "." ++ c).data =
        a.data ++ '.' :: (b.data ++ '.' :: c.data) := by
      rw [String.data_append, String.data_append, String.data_append,
        String.data_append, hdot]
      simp
    unfold parseIndexId
    rw [h2, splitOnChar_append _ _ _ hda, splitOnChar_append _ _ _ hdb,
      splitOnChar_no_sep _ _ hdc]

/-- Witness for C4 at the concrete segments "db", "coll", "idx" and the
malformed inputs "dbcollection" and "db.collection.extra". -/
theorem identifier_codec_roundtrip_witness :
    parseCollectionId ("db" ++ "." ++ "coll") = .ok ⟨"db", "coll"⟩ ∧
    parseCollectionId "dbcollection" = .error "invalid id format: dbcollection" ∧
    parseIndexId ("db" ++ "." ++ "coll" ++ "." ++ "idx") = .ok ⟨"db", "coll", "idx"⟩ := by
  have h := identifier_codec_roundtrip "db" "coll" "idx"
    (by decide) (by decide) (by decide) (by decide) (by decide) (by decide)
  refine ⟨h.1, ?_, h.2.1⟩
  have := h.2.2.1 "dbcollection" (by decide)
  simpa using this

/-- C8: sort-direction translation.  `convertToMongoIndexType` maps "asc"
to 1 and "desc" to -1 and passes any other string through; back from the
remote side, `convertToTfIndexType` maps int32 1 to "asc" and -1 to "desc",
errors on any other int32 (in particular 2), passes strings through, and
errors on any non-int32, non-string value. -/
theorem direction_translation :
    convertToMongoIndexType "asc" = .int 1 ∧
    convertToMongoIndexType "desc" = .int (-1) ∧
    (∀ s : String, s ≠ "asc" → s ≠ "desc" → convertToMongoIndexType s = .str s) ∧
    convertToTfIndexType (.int32 1) = .ok "asc" ∧
    convertToTfIndexType (.int32 (-1)) = .ok "desc" ∧
    (∀ v : Int, v ≠ 1 → v ≠ -1 →
      convertToTfIndexType (.int32 v) =
        .error "if typeIndex is int, it MUST have value 1 ou -1") ∧
    (∀ s : String, convertToTfIndexType (.str s) = .ok s) ∧
    convertToTfIndexType .other = .error "typeIndex MUST be int32 or string" ∧
    convertToTfIndexType (.int32 2) =
      .error "if typeIndex is int, it MUST have value 1 ou -1" := by
  refine ⟨by decide, by decide, ?_, by rfl, by rfl, ?_, ?_, by rfl, by rfl⟩
  · intro s h1 h2
    unfold convertToMongoIndexType
    split <;> simp_all
  · intro v h1 h2
    simp [convertToTfIndexType, h1, h2]
  · intro s
    rfl

/-- Witness for C8 at the pass-through string "hashed" and the invalid
int32 value 5. -/
theorem direction_translation_witness :
    convertToMongoIndexType "hashed" = .str "hashed" ∧
    convertToTfIndexType (.int32 5) =
      .error "if typeIndex is int, it MUST have value 1 ou -1" ∧
    convertToTfIndexType (.str "text") = .ok "text" :=
  ⟨direction_translation.2.2.1 "hashed" (by decide) (by decide),
   direction_translation.2.2.2.2.2.1 5 (by decide) (by decide),
   direction_translation.2.2.2.2.2.2.1 "text"⟩

/-! ### Connection resolver (src/internal/provider/provider.go, Configure)

External collaborators (net/url.Parse, x/net/proxy.FromURL,
x509.CertPool.AppendCertsFromPEM, mongo.Connect) are modelled as an oracle
record `NetEnv`; every theorem quantifies over all oracle behaviours, so
nothing is assumed about the network. -/

/-- Provider configuration model (provider.go, lines 43-57).  Terraform
null strings read back as "" via `ValueString()`. -/
structure mongodbProviderModel where
  host : String
  port : String
  certificate : String
  username : String
  password : String
  authDatabase : String
  replicaSet : String
  insecureSkipVerify : Bool
  ssl : Bool
  direct : Bool
  retryWrites : Bool
  proxy : String
  url : String
deriving DecidableEq

/-- The custom `tls.Config` built by `getTLSConfigWithAllServerCertificates`:
the verification toggle plus the PEM bundle appended to `RootCAs`. -/
structure TLSConfig where
  insecureSkipVerify : Bool
  rootCAsPEM : String
deriving DecidableEq

/-- The client options assembled by Configure (provider.go, lines 219-227). -/
structure ClientOpts where
  uri : String
  authSource : String
  username : String
  password : String
  tls : Option TLSConfig
  dialer : Option String
deriving DecidableEq

/-- Oracle for the external libraries used by Configure. -/
structure NetEnv where
  urlParse : String → Except String String
  proxyFromURL : String → Except String String
  appendCertsOk : String → Bool
  mongoConnect : ClientOpts → Except String Unit

/-- Outcome of `mongodbProvider.Configure`: one constructor per early
`return` adding a diagnostic, plus success carrying the client options. -/
inductive ConfigureResult where
  | configError (attr title : String)
  | proxyError (msg : String)
  | certError (msg : String)
  | connectError (msg : String)
  | ok (opts : ClientOpts)
deriving DecidableEq

/-- `addArgs` from src/unnamed/part_002 (lines 98-105). -/
def addArgs (arguments newArg : String) : String :=
  if arguments ≠ "" then arguments ++ "&" ++ newArg
  else "/?" ++ newArg

/-- `strconv.FormatBool`. -/
def formatBool (b : Bool) : String := if b then "true" else "false"

/-- The URI-building else-branch of Configure (provider.go, lines 164-181). -/
def buildUri (config : mongodbProviderModel) : String :=
  let arguments := ""
  let arguments := addArgs arguments ("retrywrites=" ++ formatBool config.retryWrites)
  let arguments := if config.ssl then addArgs arguments "ssl=true" else arguments
  let arguments :=
    if config.replicaSet ≠ "" ∧ ¬config.direct then
      addArgs arguments ("replicaSet=" ++ config.replicaSet)
    else arguments
  let arguments :=
    if config.direct then addArgs arguments ("connect=" ++ "direct") else arguments
  "mongodb://" ++ config.host ++ ":" ++ config.port ++ arguments

/-- The URI chosen by Configure (provider.go, lines 161-182): the `url`
attribute verbatim when set, otherwise the assembled one. -/
def configureUri (config : mongodbProviderModel) : String :=
  if config.url ≠ "" then config.url else buildUri config

/-- `getTLSConfigWithAllServerCertificates` from src/unnamed/part_002
(lines 107-123); `AppendCertsFromPEM` is the oracle's `appendCertsOk`. -/
def getTLSConfigWithAllServerCertificates (appendCertsOk : String → Bool)
    (ca : String) (verify : Bool) : Except String TLSConfig :=
  if appendCertsOk ca then .ok { insecureSkipVerify := verify, rootCAsPEM := ca }
  else .error "Failed parsing pem file"

/-- `proxyDialer` from src/unnamed/part_003 (lines 141-156): the empty
string short-circuits to no dialer; otherwise the URL is parsed and handed
to `proxy.FromURL`, propagating either error. -/
def proxyDialer (env : NetEnv) (proxyUrlFromProvider : String) :
    Except String (Option String) :=
  if proxyUrlFromProvider ≠ "" then
    match env.urlParse proxyUrlFromProvider with
    | .error e => .error e
    | .ok proxyURL =>
      match env.proxyFromURL proxyURL with
      | .error e => .error e
      | .ok d => .ok (some d)
  else .ok none

/-- Everything Configure does after the url/host validation
(provider.go, lines 161-245). -/
def configureClient (env : NetEnv) (config : mongodbProviderModel) :
    ConfigureResult :=
  let uri := configureUri config
  match proxyDialer env config.proxy with
  | .error e => .proxyError e
  | .ok dialer =>
    let verify := if config.insecureSkipVerify then true else false
    if config.certificate ≠ "" then
      match getTLSConfigWithAllServerCertificates env.appendCertsOk
          config.certificate verify with
      | .error e => .certError e
      | .ok tlsConfig =>
        let opts : ClientOpts :=
          { uri := uri, authSource := config.authDatabase,
            username := config.username, password := config.password,
            tls := some tlsConfig, dialer := dialer }
        match env.mongoConnect opts with
        | .error e => .connectError e
        | .ok _ => .ok opts
    else
      let opts : ClientOpts :=
        { uri := uri, authSource := config.authDatabase,
          username := config.username, password := config.password,
          tls := none, dialer := dialer }
      match env.mongoConnect opts with
      | .error e => .connectError e
      | .ok _ => .ok opts

/-- `mongodbProvider.Configure` (provider.go, lines 126-245): url/host
validation with early returns, then client assembly. -/
def Configure (env : NetEnv) (config : mongodbProviderModel) :
    ConfigureResult :=
  if config.url = "" ∧ config.host = "" then
    .configError "host" "Missing host or url"
  else if config.url ≠ "" ∧ config.host ≠ "" then
    .configError "host" "Conflicting host and url"
  else configureClient env config

/-- The query-argument list in the spec's fixed order: always
`retrywrites=<bool>`; `ssl=true` iff ssl; `replicaSet=<value>` iff
replica_set non-empty and direct false; `connect=direct` iff direct. -/
def specQueryArgs (config : mongodbProviderModel) : List String :=
  ["retrywrites=" ++ formatBool config.retryWrites] ++
  (if config.ssl then ["ssl=true"] else []) ++
  (if config.replicaSet ≠ "" ∧ ¬config.direct then
    ["replicaSet=" ++ config.replicaSet] else []) ++
  (if config.direct then ["connect=direct"] else [])

/-- Joining with `&`, as the spec words it. -/
def joinAmp : List String → String
  | [] => ""
  | [a] => a
  | a :: rest => a ++ "&" ++ joinAmp rest

lemma addArgs_ne_empty (arguments newArg : String) :
    addArgs arguments newArg ≠ "" := by
  have hamp : "&".length = 1 := rfl
  have hsq : "/?".length = 2 := rfl
  have hem : "".length = 0 := rfl
  unfold addArgs
  split
  · intro h
    have h2 := congrArg String.length h
    rw [String.length_append, String.length_append, hamp, hem] at h2
    omega
  · intro h
    have h2 := congrArg String.length h
    rw [String.length_append, hsq, hem] at h2
    omega

lemma addArgs_of_ne (arguments newArg : String) (h : arguments ≠ "") :
    addArgs arguments newArg = arguments ++ "&" ++ newArg := by
  simp [addArgs, h]

lemma addArgs_empty (newArg : String) : addArgs "" newArg = "/?" ++ newArg := by
  simp [addArgs]

lemma string_append_assoc (a b c : String) : a ++ b ++ c = a ++ (b ++ c) := by
  apply String.ext
  simp [String.data_append]

lemma joinAmp_glue (a x : String) (xs : List String) :
    joinAmp ((a ++ "&" ++ x) :: xs) = a ++ "&" ++ joinAmp (x :: xs) := by
  cases xs with
  | nil => rfl
  | cons y ys =>
    show (a ++ "&" ++ x) ++ "&" ++ joinAmp (y :: ys) =
      a ++ "&" ++ (x ++ "&" ++ joinAmp (y :: ys))
    rw [string_append_assoc (a ++ "&") x, string_append_assoc (a ++ "&")]

lemma foldl_addArgs (a : String) (l : List String) :
    List.foldl addArgs ("/?" ++ a) l = "/?" ++ joinAmp (a :: l) := by
  induction l generalizing a with
  | nil => rfl
  | cons x xs ih =>
    have hne : "/?" ++ a ≠ "" := by
      intro h
      have h2 := congrArg String.length h
      rw [String.length_append, show ("/?".length = 2) from rfl,
        show ("".length = 0) from rfl] at h2
      omega
    rw [List.foldl_cons, addArgs_of_ne _ _ hne,
      string_append_assoc "/?" a "&", string_append_assoc "/?" (a ++ "&") x,
      ih, joinAmp_glue]
    rfl

lemma foldl_addArgs_from_empty (x : String) (l : List String) :
    List.foldl addArgs "" (x :: l) = "/?" ++ joinAmp (x :: l) := by
  rw [List.foldl_cons, addArgs_empty, foldl_addArgs]

lemma buildUri_foldl (config : mongodbProviderModel) :
    buildUri config = "mongodb://" ++ config.host ++ ":" ++ config.port ++
      List.foldl addArgs "" (specQueryArgs config) := by
  unfold buildUri specQueryArgs
  by_cases hr : config.replicaSet = "" <;>
    cases hs : config.ssl <;> cases hd : config.direct <;>
    simp [hr, hs, hd, List.foldl]

/-- C2: with `url` absent, the URI Configure uses is
`mongodb://<host>:<port>` followed by `/?` and the query arguments of
`specQueryArgs` joined with `&`, in that fixed order; when `direct` is set
the `replicaSet` argument is omitted and `connect=direct` appears. -/
theorem uri_assembly (config : mongodbProviderModel) (h : config.url = "") :
    configureUri config =
      "mongodb://" ++ config.host ++ ":" ++ config.port ++
        ("/?" ++ joinAmp (specQueryArgs config)) ∧
    (config.direct = true →
      specQueryArgs config =
        ["retrywrites=" ++ formatBool config.retryWrites] ++
          (if config.ssl then ["ssl=true"] else []) ++ ["connect=direct"]) := by
  constructor
  · have h0 : configureUri config = buildUri config := by
      simp [configureUri, h]
    rw [h0, buildUri_foldl]
    have h1 : specQueryArgs config =
        ("retrywrites=" ++ formatBool config.retryWrites) ::
          ((if config.ssl then ["ssl=true"] else []) ++
           (if config.replicaSet ≠ "" ∧ ¬config.direct then
             ["replicaSet=" ++ config.replicaSet] else []) ++
           (if config.direct then ["connect=direct"] else [])) := by
      simp [specQueryArgs]
    rw [h1, foldl_addArgs_from_empty, ← h1]
  · intro hd
    unfold specQueryArgs
    simp [hd]

/-- Witness for C2: a concrete configuration with ssl, a replica set and
direct all set produces the documented URI with `replicaSet` omitted. -/
theorem uri_assembly_witness :
    configureUri
      { host := "localhost", port := "27017", certificate := "",
        username := "", password := "", authDatabase := "",
        replicaSet := "rs0", insecureSkipVerify := false, ssl := true,
        direct := true, retryWrites := false, proxy := "", url := "" } =
      "mongodb://localhost:27017/?retrywrites=false&ssl=true&connect=direct" := by
  have h := uri_assembly
    { host := "localhost", port := "27017", certificate := "",
      username := "", password := "", authDatabase := "",
      replicaSet := "rs0", insecureSkipVerify := false, ssl := true,
      direct := true, retryWrites := false, proxy := "", url := "" } rfl
  exact h.1.trans (by decide)

lemma configureClient_ne_configError (env : NetEnv)
    (config : mongodbProviderModel) (a t : String) :
    configureClient env config ≠ .configError a t := by
  unfold configureClient
  dsimp only
  split
  · simp
  · split
    · split
      · simp
      · split <;> simp
    · split <;> simp

/-- C1: url/host validation.  With both or neither of url and host set,
Configure returns the corresponding configuration error, independently of
every external behaviour (no proxy resolution, TLS setup or connection
attempt); with exactly one of them set, Configure never returns a
configuration error. -/
theorem configure_validation (env env2 : NetEnv)
    (config : mongodbProviderModel) :
    (config.url = "" ∧ config.host = "" →
      Configure env config = .configError "host" "Missing host or url") ∧
    (config.url ≠ "" ∧ config.host ≠ "" →
      Configure env config = .configError "host" "Conflicting host and url") ∧
    ((config.url = "" ∧ config.host = "") ∨ (config.url ≠ "" ∧ config.host ≠ "") →
      Configure env config = Configure env2 config) ∧
    ((config.url = "" ↔ config.host ≠ "") →
      ∀ a t, Configure env config ≠ .configError a t) := by
  refine ⟨?_, ?_, ?_, ?_⟩
  · rintro ⟨h1, h2⟩
    simp [Configure, h1, h2]
  · rintro ⟨h1, h2⟩
    unfold Configure
    rw [if_neg (by tauto), if_pos ⟨h1, h2⟩]
  · rintro (⟨h1, h2⟩ | ⟨h1, h2⟩)
    · simp [Configure, h1, h2]
    · unfold Configure
      rw [if_neg (by tauto), if_pos ⟨h1, h2⟩, if_neg (by tauto),
        if_pos ⟨h1, h2⟩]
  · intro hx a t
    unfold Configure
    rw [if_neg (by tauto), if_neg (by tauto)]
    exact configureClient_ne_configError env config a t

/-- A fully inert oracle: every external call succeeds. -/
def env0 : NetEnv :=
  { urlParse := fun _ => .ok "", proxyFromURL := fun _ => .ok "p",
    appendCertsOk := fun _ => true, mongoConnect := fun _ => .ok () }

/-- The all-defaults configuration (every attribute null/false). -/
def cfg0 : mongodbProviderModel :=
  { host := "", port := "", certificate := "", username := "", password := "",
    authDatabase := "", replicaSet := "", insecureSkipVerify := false,
    ssl := false, direct := false, retryWrites := false, proxy := "", url := "" }

/-- Witness for C1: the empty configuration, a host+url configuration, and
a host-only configuration. -/
theorem configure_validation_witness :
    Configure env0 cfg0 = .configError "host" "Missing host or url" ∧
    Configure env0 { cfg0 with host := "localhost", url := "mongodb://x" } =
      .configError "host" "Conflicting host and url" ∧
    Configure env0 { cfg0 with host := "localhost" } ≠
      .configError "host" "Missing host or url" :=
  ⟨(configure_validation env0 env0 cfg0).1 ⟨rfl, rfl⟩,
   (configure_validation env0 env0 _).2.1 ⟨by decide, by decide⟩,
   (configure_validation env0 env0 { cfg0 with host := "localhost" }).2.2.2
     (by decide) "host" "Missing host or url"⟩

/-- C3: proxy resolution.  The empty proxy string resolves to no dialer
without error; a parse failure or an unsupported-scheme failure from the
proxy library is propagated, and Configure surfaces it as the
proxy-configuration diagnostic. -/
theorem proxy_resolution (env : NetEnv) (s u e : String)
    (config : mongodbProviderModel) :
    proxyDialer env "" = .ok none ∧
    (s ≠ "" → env.urlParse s = .error e → proxyDialer env s = .error e) ∧
    (s ≠ "" → env.urlParse s = .ok u → env.proxyFromURL u = .error e →
      proxyDialer env s = .error e) ∧
    (proxyDialer env config.proxy = .error e →
      (config.url = "" ↔ config.host ≠ "") →
      Configure env config = .proxyError e) := by
  refine ⟨by simp [proxyDialer], ?_, ?_, ?_⟩
  · intro hs hp
    simp [proxyDialer, hs, hp]
  · intro hs hp hf
    simp [proxyDialer, hs, hp, hf]
  · intro hp hx
    unfold Configure
    rw [if_neg (by tauto), if_neg (by tauto)]
    simp [configureClient, hp]

/-- An oracle whose URL parser rejects everything. -/
def envParseFail : NetEnv := { env0 with urlParse := fun _ => .error "bad url" }

/-- An oracle whose proxy library rejects every scheme. -/
def envSchemeFail : NetEnv :=
  { env0 with proxyFromURL := fun _ => .error "proxy: unknown scheme" }

/-- Witness for C3: empty proxy on the inert oracle; failing parse and
failing scheme oracles on a concrete proxy string; the proxy diagnostic
surfaced through Configure. -/
theorem proxy_resolution_witness :
    proxyDialer env0 "" = .ok none ∧
    proxyDialer envParseFail "::bad" = .error "bad url" ∧
    proxyDialer envSchemeFail "ftp://p" = .error "proxy: unknown scheme" ∧
    Configure envParseFail { cfg0 with host := "localhost", proxy := "::bad" } =
      .proxyError "bad url" :=
  ⟨(proxy_resolution env0 "" "" "" cfg0).1,
   (proxy_resolution envParseFail "::bad" "" "bad url" cfg0).2.1 (by decide) rfl,
   (proxy_resolution envSchemeFail "ftp://p" "" "proxy: unknown scheme" cfg0).2.2.1
     (by decide) rfl rfl,
   (proxy_resolution envParseFail "::bad" ""
       "bad url" { cfg0 with host := "localhost", proxy := "::bad" }).2.2.2
     (by rfl) (by decide)⟩

lemma if_bool_id (b : Bool) : (if b then true else false) = b := by
  cases b <;> rfl

lemma configure_ok_tls (env : NetEnv) (config : mongodbProviderModel)
    (opts : ClientOpts) (h : Configure env config = .ok opts) :
    opts.tls = if config.certificate = "" then none
      else some { insecureSkipVerify :=
                    if config.insecureSkipVerify then true else false,
                  rootCAsPEM := config.certificate } := by
  by_cases h1 : config.url = "" ∧ config.host = ""
  · unfold Configure at h
    rw [if_pos h1] at h
    simp at h
  · by_cases h2 : config.url ≠ "" ∧ config.host ≠ ""
    · unfold Configure at h
      rw [if_neg h1, if_pos h2] at h
      simp at h
    · unfold Configure at h
      rw [if_neg h1, if_neg h2] at h
      unfold configureClient at h
      rcases hp : proxyDialer env config.proxy with e | d
      · rw [hp] at h
        simp at h
      · rw [hp] at h
        dsimp only at h
        by_cases hc : config.certificate = ""
        · rw [if_pos hc]
          rw [if_neg (not_not_intro hc)] at h
          split at h
          · exact ConfigureResult.noConfusion h
          · injection h with h
            subst h
            rfl
        · rw [if_neg hc]
          rw [if_pos hc] at h
          unfold getTLSConfigWithAllServerCertificates at h
          rcases hca : env.appendCertsOk config.certificate with _ | _
          · rw [hca] at h
            simp at h
          · rw [hca] at h
            simp only [if_true, reduceIte] at h
            split at h
            · exact ConfigureResult.noConfusion h
            · injection h with h
              subst h
              rfl

/-- C10: the custom TLS configuration (and with it the
insecure-skip-verify toggle) is built and applied iff the certificate
attribute is non-empty; with an empty certificate the client options carry
no TLS configuration and Configure is entirely insensitive to the
insecure_skip_verify flag. -/
theorem tls_config_iff_certificate (env : NetEnv)
    (config : mongodbProviderModel) :
    (config.certificate = "" →
      (∀ opts, Configure env config = .ok opts → opts.tls = none) ∧
      (∀ b1 b2 : Bool,
        Configure env { config with insecureSkipVerify := b1 } =
          Configure env { config with insecureSkipVerify := b2 })) ∧
    (config.certificate ≠ "" →
      ∀ opts, Configure env config = .ok opts →
        opts.tls = some { insecureSkipVerify := config.insecureSkipVerify,
                          rootCAsPEM := config.certificate }) := by
  constructor
  · intro hcert
    constructor
    · intro opts hok
      rw [configure_ok_tls env config opts hok, if_pos hcert]
    · intro b1 b2
      unfold Configure configureClient configureUri buildUri
      simp [hcert]
  · intro hcert opts hok
    rw [configure_ok_tls env config opts hok, if_neg hcert, if_bool_id]

/-- Witness for C10: flipping insecure_skip_verify with no certificate
leaves Configure unchanged, and with a certificate the options carry the
TLS configuration holding exactly that PEM bundle. -/
theorem tls_config_iff_certificate_witness :
    Configure env0 { cfg0 with host := "h", insecureSkipVerify := true } =
      Configure env0 { cfg0 with host := "h", insecureSkipVerify := false } ∧
    ({ uri := "mongodb://h:/?retrywrites=false", authSource := "",
       username := "", password := "",
       tls := some { insecureSkipVerify := false, rootCAsPEM := "PEM" },
       dialer := none } : ClientOpts).tls =
      some { insecureSkipVerify := false, rootCAsPEM := "PEM" } := by
  constructor
  · exact ((tls_config_iff_certificate env0 { cfg0 with host := "h" }).1 rfl).2
      true false
  · exact (tls_config_iff_certificate env0
      { cfg0 with host := "h", certificate := "PEM" }).2 (by decide)
      { uri := "mongodb://h:/?retrywrites=false", authSource := "",
        username := "", password := "",
        tls := some { insecureSkipVerify := false, rootCAsPEM := "PEM" },
        dialer := none } (by rfl)

/-! ### Resource state machines

Each lifecycle method becomes a function from its payload and a
`MongoOracle` (the remote client's observable behaviour) to a response
carrying the diagnostics raised, the state written (if any) and the
remote calls performed, mirroring the Go control flow with its early
returns. -/

/-- A terraform diagnostic: a short title and a long detail. -/
structure Diagnostic where
  title : String
  detail : String
deriving DecidableEq

/-- Remote operations issued against the shared client. -/
inductive RemoteCall where
  | createCollection (db coll : String) (validator : Option String)
  | dropCollection (db coll : String)
  | listDatabaseNames (filterName : String)
  | listCollectionNames (db filterName : String)
  | listIndexes (db coll : String) (filterName : Option String)
  | createIndex (db coll : String) (keys : List (String × MongoIndexVal))
deriving DecidableEq

/-- Behaviour of the remote store, one function per driver call the
resources use; `Option String`/`Except String` carry the error, if any. -/
structure MongoOracle where
  createCollection : String → String → Option String → Option String
  dropCollection : String → String → Option String
  listDatabaseNames : String → Except String (List String)
  listCollectionNames : String → String → Except String (List String)
  createIndex : String → String → List (String × MongoIndexVal) → Except String String
  listIndexNames : String → String → Option String → Except String (List String)

/-- Response of a Create/Read/Update call. -/
structure OpResponse (σ : Type) where
  diagnostics : List Diagnostic
  state : Option σ
  calls : List RemoteCall
deriving DecidableEq

/-- Response of an ImportState call: diagnostics plus the attributes
seeded into state. -/
structure ImportResponse where
  diagnostics : List Diagnostic
  attributes : List (String × String)
deriving DecidableEq

/-- `databaseResourceModel` (src/unnamed/part_001, lines 31-34); the
computed `id` is a nullable `types.String`. -/
structure databaseResourceModel where
  name : String
  id : Option String
deriving DecidableEq

/-- `validation` (src/unnamed/part_003, lines 196-198). -/
structure validation where
  validator : String
deriving DecidableEq

/-- `collectionResourceModel` (src/unnamed/part_003, lines 189-194). -/
structure collectionResourceModel where
  database : String
  name : String
  validation : Option validation
  id : Option String
deriving DecidableEq

/-- `databaseResource.Create` (src/unnamed/part_001, lines 87-135):
create the `_terraform_created` marker collection, drop it, set id. -/
def databaseResource_Create (o : MongoOracle)
    (plan : databaseResourceModel) : OpResponse databaseResourceModel :=
  let databaseName := plan.name
  match o.createCollection databaseName "_terraform_created" none with
  | some e =>
    { diagnostics := [⟨"Unable to create database",
        "An unexpected error occurred when creating database. If the error is not clear, please contact the provider developers.\n\nError: " ++ e⟩],
      state := none,
      calls := [.createCollection databaseName "_terraform_created" none] }
  | none =>
    match o.dropCollection databaseName "_terraform_created" with
    | some e =>
      { diagnostics := [⟨"Unable to clean up dummy collection",
          "An unexpected error occurred when cleaning up. If the error is not clear, please contact the provider developers.\n\nError: " ++ e⟩],
        state := none,
        calls := [.createCollection databaseName "_terraform_created" none,
          .dropCollection databaseName "_terraform_created"] }
    | none =>
      { diagnostics := [],
        state := some { plan with id := some databaseName },
        calls := [.createCollection databaseName "_terraform_created" none,
          .dropCollection databaseName "_terraform_created"] }

/-- `databaseResource.Read` (src/unnamed/part_001, lines 138-183). -/
def databaseResource_Read (o : MongoOracle)
    (state : databaseResourceModel) : OpResponse databaseResourceModel :=
  let databaseName := state.name
  match o.listDatabaseNames databaseName with
  | .error e =>
    { diagnostics := [⟨"Unable to list databases",
        "An unexpected error occurred when listing databases. If the error is not clear, please contact the provider developers.\n\nError: " ++ e⟩],
      state := none, calls := [.listDatabaseNames databaseName] }
  | .ok databases =>
    if databases.length = 0 then
      { diagnostics := [⟨"Database not found",
          "Database " ++ databaseName ++ " does not exist"⟩],
        state := none, calls := [.listDatabaseNames databaseName] }
    else
      { diagnostics := [],
        state := some { state with id := some databaseName },
        calls := [.listDatabaseNames databaseName] }

/-- `databaseResource.Update` (src/unnamed/part_001, lines 186-191):
unconditional error, no remote call, no state write. -/
def databaseResource_Update (o : MongoOracle)
    (plan : databaseResourceModel) : OpResponse databaseResourceModel :=
  { diagnostics := [⟨"Updates not supported",
      "Database updates are not supported. Changes to database configuration require recreation."⟩],
    state := none, calls := [] }

/-- `databaseResource.ImportState` (src/unnamed/part_001, lines 221-223):
seed the name attribute with the raw import id, nothing decoded. -/
def databaseResource_ImportState (id : String) : ImportResponse :=
  { diagnostics := [], attributes := [("name", id)] }

/-- `collectionResource.Create` (src/unnamed/part_003, lines 268-309):
create the named collection with the optional validator, set id. -/
def collectionResource_Create (o : MongoOracle)
    (plan : collectionResourceModel) : OpResponse collectionResourceModel :=
  let databaseName := plan.database
  let collectionName := plan.name
  let validator := match plan.validation with
    | some v => some v.validator
    | none => none
  match o.createCollection databaseName collectionName validator with
  | some e =>
    { diagnostics := [⟨"Unable to create collection",
        "An unexpected error occurred when creating collection. If the error is not clear, please contact the provider developers.\n\nError: " ++ e⟩],
      state := none,
      calls := [.createCollection databaseName collectionName validator] }
  | none =>
    { diagnostics := [],
      state := some
        { plan with id := some (databaseName ++ "." ++ collectionName) },
      calls := [.createCollection databaseName collectionName validator] }

/-- `collectionResource.Read` (src/unnamed/part_003, lines 312-358). -/
def collectionResource_Read (o : MongoOracle)
    (state : collectionResourceModel) : OpResponse collectionResourceModel :=
  let databaseName := state.database
  let collectionName := state.name
  match o.listCollectionNames databaseName collectionName with
  | .error e =>
    { diagnostics := [⟨"Unable to list collections",
        "An unexpected error occurred when listing collections. If the error is not clear, please contact the provider developers.\n\nError: " ++ e⟩],
      state := none, calls := [.listCollectionNames databaseName collectionName] }
  | .ok collections =>
    if collections.length = 0 then
      { diagnostics := [⟨"Collection not found",
          "Collection " ++ databaseName ++ "." ++ collectionName ++ " does not exist"⟩],
        state := none, calls := [.listCollectionNames databaseName collectionName] }
    else
      { diagnostics := [],
        state := some
          { state with id := some (databaseName ++ "." ++ collectionName) },
        calls := [.listCollectionNames databaseName collectionName] }

/-- `collectionResource.Update` (src/unnamed/part_003, lines 361-366). -/
def collectionResource_Update (o : MongoOracle)
    (plan : collectionResourceModel) : OpResponse collectionResourceModel :=
  { diagnostics := [⟨"Updates not supported",
      "Collection updates are not supported. Changes to collection configuration require recreation."⟩],
    state := none, calls := [] }

/-- `collectionResource.ImportState` (src/unnamed/part_003, lines 398-412):
decode via `parseCollectionId`; on failure raise the invalid-id-format
diagnostic and seed nothing; on success seed database and name only. -/
def collectionResource_ImportState (id : String) : ImportResponse :=
  match parseCollectionId id with
  | .error e =>
    { diagnostics := [⟨"Invalid id format. Should be <database>.<collection>.",
        "An unexpected error occurred when importing collection. If the error is not clear, please contact the provider developers.\n\nError: " ++ e⟩],
      attributes := [] }
  | .ok cid =>
    { diagnostics := [],
      attributes := [("database", cid.database), ("name", cid.collection)] }

/-- The index resource's declared attributes; keys map field names to
"asc"/"desc" tokens. -/
structure indexResourceModel where
  database : String
  collection : String
  name : Option String
  keys : List (String × String)
  id : Option String
deriving DecidableEq

/-- Modelled from the spec: the index resource implementation file is not
under src/ (only the `NewIndexResource` registration, `parseIndexId` and
the direction translators are).  Per the spec, Create creates an index
from the key specification (directions translated via
`convertToMongoIndexType`), fails with an invalid-key-spec diagnostic if
the key mapping is empty and with a remote-operation diagnostic on remote
failure; on success the identifier is `database.collection.indexName`
where indexName is whichever name the remote store assigned. -/
def indexResource_Create (o : MongoOracle)
    (plan : indexResourceModel) : OpResponse indexResourceModel :=
  if plan.keys = [] then
    { diagnostics := [⟨"Invalid key specification",
        "The index key mapping must not be empty."⟩],
      state := none, calls := [] }
  else
    let mongoKeys := plan.keys.map (fun kv => (kv.1, convertToMongoIndexType kv.2))
    match o.createIndex plan.database plan.collection mongoKeys with
    | .error e =>
      { diagnostics := [⟨"Unable to create index",
          "An unexpected error occurred when creating index.\n\nError: " ++ e⟩],
        state := none,
        calls := [.createIndex plan.database plan.collection mongoKeys] }
    | .ok assignedName =>
      { diagnostics := [],
        state := some
          { plan with
            name := some assignedName,
            id := some (plan.database ++ "." ++ plan.collection ++ "." ++ assignedName) },
        calls := [.createIndex plan.database plan.collection mongoKeys] }

/-- Modelled from the spec: any Update call unconditionally fails with the
unsupported-operation diagnostic, identically across the three kinds; the
acceptance tests match the title "Updates not supported". -/
def indexResource_Update (o : MongoOracle)
    (plan : indexResourceModel) : OpResponse indexResourceModel :=
  { diagnostics := [⟨"Updates not supported",
      "Index updates are not supported. Changes to index configuration require recreation."⟩],
    state := none, calls := [] }

/-- Modelled from the spec: the index resource implementation file is not
under src/.  Per the spec, Read re-queries the remote store by listing the
collection's indexes filtered by the index name; it fails with a
remote-operation diagnostic on query failure, fails with a not-found
diagnostic when the listing returns zero matches, and on success
re-derives the identifier from the identity attributes, mutating nothing
remotely. -/
def indexResource_Read (o : MongoOracle)
    (state : indexResourceModel) : OpResponse indexResourceModel :=
  match o.listIndexNames state.database state.collection state.name with
  | .error e =>
    { diagnostics := [⟨"Unable to list indexes",
        "An unexpected error occurred when listing indexes.\n\nError: " ++ e⟩],
      state := none,
      calls := [.listIndexes state.database state.collection state.name] }
  | .ok indexes =>
    if indexes.length = 0 then
      { diagnostics := [⟨"Index not found",
          "Index " ++ state.database ++ "." ++ state.collection ++
            " does not exist"⟩],
        state := none,
        calls := [.listIndexes state.database state.collection state.name] }
    else
      { diagnostics := [],
        state := some
          { state with
            id := some (state.database ++ "." ++ state.collection ++ "." ++
              (match state.name with | some n => n | none => "")) },
        calls := [.listIndexes state.database state.collection state.name] }

/-- Modelled from the spec: Import decodes the id via the three-segment
codec (`parseIndexId`), fails with a malformed-identifier diagnostic
surfaced as an invalid-id-format message naming the expected pattern, and
on success seeds the identity attributes only. -/
def indexResource_ImportState (id : String) : ImportResponse :=
  match parseIndexId id with
  | .error e =>
    { diagnostics :=
        [⟨"Invalid id format. Should be <database>.<collection>.<index_name>.",
          "Error: " ++ e⟩],
      attributes := [] }
  | .ok iid =>
    { diagnostics := [],
      attributes := [("database", iid.database), ("collection", iid.collection),
        ("name", iid.indexName)] }

/-- C5: every Update, regardless of its payload and of the remote store's
behaviour, unconditionally fails with a diagnostic titled
"Updates not supported", performs no remote call, and writes no state —
for all three resource kinds (the index kind modelled from the spec). -/
theorem update_always_fails (o : MongoOracle)
    (dbPlan : databaseResourceModel) (collPlan : collectionResourceModel)
    (idxPlan : indexResourceModel) :
    (databaseResource_Update o dbPlan).diagnostics.map Diagnostic.title =
      ["Updates not supported"] ∧
    (databaseResource_Update o dbPlan).state = none ∧
    (databaseResource_Update o dbPlan).calls = [] ∧
    (collectionResource_Update o collPlan).diagnostics.map Diagnostic.title =
      ["Updates not supported"] ∧
    (collectionResource_Update o collPlan).state = none ∧
    (collectionResource_Update o collPlan).calls = [] ∧
    (indexResource_Update o idxPlan).diagnostics.map Diagnostic.title =
      ["Updates not supported"] ∧
    (indexResource_Update o idxPlan).state = none ∧
    (indexResource_Update o idxPlan).calls = [] :=
  ⟨rfl, rfl, rfl, rfl, rfl, rfl, rfl, rfl, rfl⟩

/-- C6: database Create first creates the `_terraform_created` marker
collection in the named database and then drops it; a failure of either
step produces the corresponding error diagnostic and no state (a drop
failure is still a Create failure although the create call already
succeeded, as the recorded calls show); when both steps succeed the
computed identifier equals the database name. -/
theorem database_create_marker (o : MongoOracle)
    (plan : databaseResourceModel) :
    (∀ e, o.createCollection plan.name "_terraform_created" none = some e →
      databaseResource_Create o plan =
        { diagnostics := [⟨"Unable to create database",
            "An unexpected error occurred when creating database. If the error is not clear, please contact the provider developers.\n\nError: " ++ e⟩],
          state := none,
          calls := [.createCollection plan.name "_terraform_created" none] }) ∧
    (∀ e, o.createCollection plan.name "_terraform_created" none = none →
      o.dropCollection plan.name "_terraform_created" = some e →
      databaseResource_Create o plan =
        { diagnostics := [⟨"Unable to clean up dummy collection",
            "An unexpected error occurred when cleaning up. If the error is not clear, please contact the provider developers.\n\nError: " ++ e⟩],
          state := none,
          calls := [.createCollection plan.name "_terraform_created" none,
            .dropCollection plan.name "_terraform_created"] }) ∧
    (o.createCollection plan.name "_terraform_created" none = none →
      o.dropCollection plan.name "_terraform_created" = none →
      databaseResource_Create o plan =
        { diagnostics := [],
          state := some { plan with id := some plan.name },
          calls := [.createCollection plan.name "_terraform_created" none,
            .dropCollection plan.name "_terraform_created"] }) := by
  refine ⟨?_, ?_, ?_⟩
  · intro e he
    simp [databaseResource_Create, he]
  · intro e h1 h2
    simp [databaseResource_Create, h1, h2]
  · intro h1 h2
    simp [databaseResource_Create, h1, h2]

/-- A remote store on which every operation succeeds. -/
def oracleOk : MongoOracle :=
  { createCollection := fun _ _ _ => none, dropCollection := fun _ _ => none,
    listDatabaseNames := fun _ => .ok ["found"],
    listCollectionNames := fun _ _ => .ok ["found"],
    createIndex := fun _ _ _ => .ok "idx_1",
    listIndexNames := fun _ _ _ => .ok ["found"] }

/-- A remote store on which dropping a collection fails. -/
def oracleDropFails : MongoOracle :=
  { oracleOk with dropCollection := fun _ _ => some "boom" }

/-- Witness for C6: on a fully successful store, creating database
"test_db_new" records the marker create-then-drop and sets the identifier
to the database name; on a store whose drop fails, Create fails with the
cleanup diagnostic and writes no state. -/
theorem database_create_marker_witness :
    databaseResource_Create oracleOk ⟨"test_db_new", none⟩ =
      { diagnostics := [],
        state := some ⟨"test_db_new", some "test_db_new"⟩,
        calls := [.createCollection "test_db_new" "_terraform_created" none,
          .dropCollection "test_db_new" "_terraform_created"] } ∧
    databaseResource_Create oracleDropFails ⟨"d", none⟩ =
      { diagnostics := [⟨"Unable to clean up dummy collection",
          "An unexpected error occurred when cleaning up. If the error is not clear, please contact the provider developers.\n\nError: boom"⟩],
        state := none,
        calls := [.createCollection "d" "_terraform_created" none,
          .dropCollection "d" "_terraform_created"] } :=
  ⟨(database_create_marker oracleOk ⟨"test_db_new", none⟩).2.2 rfl rfl,
   (database_create_marker oracleDropFails ⟨"d", none⟩).2.1 "boom" rfl rfl⟩

/-- C9: atomicity of the state record.  For every remote behaviour and
payload, each Create (and each Read refresh) writes a state record iff it
raised no diagnostic: any failing step — including the marker-collection
cleanup of database Create — leaves the state unwritten. -/
theorem no_state_on_error (o : MongoOracle)
    (dbPlan : databaseResourceModel) (collPlan : collectionResourceModel)
    (idxPlan : indexResourceModel) :
    ((databaseResource_Create o dbPlan).state.isSome ↔
      (databaseResource_Create o dbPlan).diagnostics = []) ∧
    ((databaseResource_Read o dbPlan).state.isSome ↔
      (databaseResource_Read o dbPlan).diagnostics = []) ∧
    ((collectionResource_Create o collPlan).state.isSome ↔
      (collectionResource_Create o collPlan).diagnostics = []) ∧
    ((collectionResource_Read o collPlan).state.isSome ↔
      (collectionResource_Read o collPlan).diagnostics = []) ∧
    ((indexResource_Create o idxPlan).state.isSome ↔
      (indexResource_Create o idxPlan).diagnostics = []) ∧
    ((indexResource_Read o idxPlan).state.isSome ↔
      (indexResource_Read o idxPlan).diagnostics = []) := by
  refine ⟨?_, ?_, ?_, ?_, ?_, ?_⟩
  · unfold databaseResource_Create
    dsimp only
    split
    · simp
    · split <;> simp
  · unfold databaseResource_Read
    dsimp only
    split
    · simp
    · split <;> simp
  · unfold collectionResource_Create
    dsimp only
    split <;> simp
  · unfold collectionResource_Read
    dsimp only
    split
    · simp
    · split <;> simp
  · unfold indexResource_Create
    dsimp only
    split
    · simp
    · split <;> simp
  · unfold indexResource_Read
    split
    · simp
    · split <;> simp

/-- C7 counterexample: the database kind's Import does not decode the id
through the codec at all: "a.b" splits into 2 segments instead of the 1
segment a database identifier has, yet ImportState raises no diagnostic
and seeds name := "a.b" verbatim. -/
theorem database_import_no_validation :
    databaseResource_ImportState "a.b" =
      { diagnostics := [], attributes := [("name", "a.b")] } ∧
    (splitOnChar '.' "a.b".data).length = 2 :=
  ⟨rfl, by decide⟩

/-- C7 (amended): collection and index Import decode the supplied id via
the codec for their expected segment count, fail with the user-facing
invalid-id-format diagnostic and seed nothing when decoding fails, and on
success seed exactly the identity attributes; database Import, however,
performs no decoding and unconditionally seeds the name attribute with
the raw id. -/
theorem import_seeds_identity (id : String) (cid : collectionId)
    (iid : indexId) :
    (parseCollectionId id = .ok cid →
      collectionResource_ImportState id =
        { diagnostics := [],
          attributes := [("database", cid.database), ("name", cid.collection)] }) ∧
    (∀ e, parseCollectionId id = .error e →
      (collectionResource_ImportState id).attributes = [] ∧
      (collectionResource_ImportState id).diagnostics.map Diagnostic.title =
        ["Invalid id format. Should be <database>.<collection>."]) ∧
    (parseIndexId id = .ok iid →
      indexResource_ImportState id =
        { diagnostics := [],
          attributes := [("database", iid.database),
            ("collection", iid.collection), ("name", iid.indexName)] }) ∧
    (∀ e, parseIndexId id = .error e →
      (indexResource_ImportState id).attributes = [] ∧
      (indexResource_ImportState id).diagnostics.map Diagnostic.title =
        ["Invalid id format. Should be <database>.<collection>.<index_name>."]) ∧
    databaseResource_ImportState id =
      { diagnostics := [], attributes := [("name", id)] } := by
  refine ⟨?_, ?_, ?_, ?_, rfl⟩
  · intro h
    simp [collectionResource_ImportState, h]
  · intro e h
    simp [collectionResource_ImportState, h]
  · intro h
    simp [indexResource_ImportState, h]
  · intro e h
    simp [indexResource_ImportState, h]

/-- Witness for C7 at the well-formed id "db.coll", the malformed id
"nodot", and the raw database id "plain". -/
theorem import_seeds_identity_witness :
    collectionResource_ImportState "db.coll" =
      { diagnostics := [],
        attributes := [("database", "db"), ("name", "coll")] } ∧
    (collectionResource_ImportState "nodot").attributes = [] ∧
    databaseResource_ImportState "plain" =
      { diagnostics := [], attributes := [("name", "plain")] } :=
  ⟨(import_seeds_identity "db.coll" ⟨"db", "coll"⟩ ⟨"", "", ""⟩).1 rfl,
   ((import_seeds_identity "nodot" ⟨"", ""⟩ ⟨"", "", ""⟩).2.1
     "invalid id format: nodot" rfl).1,
   (import_seeds_identity "plain" ⟨"", ""⟩ ⟨"", "", ""⟩).2.2.2.2⟩
